import Mathlib

/-!
Verification of the UIDAI dashboard (src/app.py) against its specification.

The program is a single-file dashboard: it loads two CSV tables (a master
table of enrolment/update records and a forecast table), applies one
optional equality filter on the state column, and computes a handful of
group-by/sum aggregates per view.  This file gives a shallow embedding of
the data model and of every aggregation the claims touch, translated
directly from the pandas calls in src/app.py, and proves the claims about
them.

Modelling conventions:
  - a pandas DataFrame is a list of rows (a Lean structure per table);
  - a missing cell (NaN) is an Option that is none; a column that is
    absent from the CSV is recorded by a Boolean flag on the table, and a
    well-formedness predicate says an absent column carries no values;
  - pandas groupby sorts its group keys ascending; string keys are
    compared code-point-lexicographically exactly as Python compares str
    values, which we model with an explicit Boolean comparison on the
    underlying character lists (the built-in String order of Lean is not
    kernel-reducible, so we spell the same order out ourselves);
  - Series.idxmax returns the label of the first occurrence of the
    maximum value in series order; on an empty series it raises, which we
    model by returning none and mapping none to an error in the view;
  - date parsing (pd.to_datetime) is elided: dates stay strings, which is
    faithful for every claim considered here;
  - exceptions are modelled with Except; the single try/except block of
    the program catches exactly FileNotFoundError.
-/

/-- Code-point lexicographic comparison of character lists, the order
Python uses on str values and hence the order pandas sorts string group
keys by. -/
def strLeCB : List Char → List Char → Bool
  | [], _ => true
  | _ :: _, [] => false
  | a :: as, b :: bs =>
    if a.toNat < b.toNat then true
    else if b.toNat < a.toNat then false
    else strLeCB as bs

/-- The induced order on strings. -/
def strLe (a b : String) : Prop := strLeCB a.data b.data = true

instance : DecidableRel strLe := fun a b => by
  unfold strLe; infer_instance

theorem strLeCB_refl (l : List Char) : strLeCB l l = true := by
  induction l with
  | nil => rfl
  | cons a as ih => simp [strLeCB, ih]

theorem strLeCB_total (a b : List Char) : strLeCB a b = true ∨ strLeCB b a = true := by
  induction a generalizing b with
  | nil => left; rfl
  | cons x xs ih =>
    cases b with
    | nil => right; rfl
    | cons y ys =>
      rcases Nat.lt_trichotomy x.toNat y.toNat with h | h | h
      · left; simp [strLeCB, h]
      · have hxy : ¬ x.toNat < y.toNat := by omega
        have hyx : ¬ y.toNat < x.toNat := by omega
        rcases ih ys with h' | h'
        · left; simp [strLeCB, hxy, hyx, h']
        · right; simp [strLeCB, hxy, hyx, h']
      · right; simp [strLeCB, h]

theorem strLeCB_trans (a b c : List Char) (hab : strLeCB a b = true)
    (hbc : strLeCB b c = true) : strLeCB a c = true := by
  induction a generalizing b c with
  | nil => rfl
  | cons x xs ih =>
    cases b with
    | nil => simp [strLeCB] at hab
    | cons y ys =>
      cases c with
      | nil => simp [strLeCB] at hbc
      | cons z zs =>
        simp only [strLeCB] at hab hbc ⊢
        split_ifs at hab hbc ⊢ <;> first
          | rfl
          | omega
          | (exact ih ys zs hab hbc)

instance : IsTotal String strLe := ⟨fun a b => strLeCB_total a.data b.data⟩

instance : IsTrans String strLe :=
  ⟨fun a b c hab hbc => strLeCB_trans a.data b.data c.data hab hbc⟩

theorem strLe_refl (a : String) : strLe a a := strLeCB_refl a.data

/-- One row of master_uidai_data_cleaned.csv.  The source column is named
Type, a keyword of Lean, so the field is spelled Type_. -/
structure MasterRow where
  date : String
  state : String
  district : String
  Type_ : String
  Age_Group : String
  Count : Int
deriving DecidableEq, Repr

/-- Sidebar filter of app.py lines 71 to 74: one equality filter on the
state column unless the sentinel All India is selected. -/
def df_filtered (rows : List MasterRow) (selected_state : String) : List MasterRow :=
  if selected_state ≠ "All India" then rows.filter (fun r => r.state == selected_state)
  else rows

/-- app.py line 83: sum of Count over the rows whose Type is Enrolment. -/
def total_enrol (rows : List MasterRow) : Int :=
  ((rows.filter (fun r => r.Type_ == "Enrolment")).map (·.Count)).sum

/-- app.py line 84: sum of Count over the rows whose Type is not Enrolment. -/
def total_updates (rows : List MasterRow) : Int :=
  ((rows.filter (fun r => !(r.Type_ == "Enrolment"))).map (·.Count)).sum

/-- Sum of the Count column restricted to rows satisfying a predicate.
This is the wording of the specification (sum of Count where ...), stated
independently of the filter-then-sum formulation of the code. -/
def sumCountWhere (p : MasterRow → Prop) [DecidablePred p] (rows : List MasterRow) : Int :=
  (rows.map (fun r => if p r then r.Count else 0)).sum

/-- Summed Count of the rows of one district: one entry of the series
produced by groupby on district followed by sum on Count. -/
def districtSum (rows : List MasterRow) (d : String) : Int :=
  ((rows.filter (fun r => r.district == d)).map (·.Count)).sum

/-- The series groupby district, sum of Count: pandas groups by the
distinct district keys and sorts the keys ascending (sort=True is the
groupby default), so the series is the sorted key list paired with the
per-district sums. -/
def groupSumsByDistrict (rows : List MasterRow) : List (String × Int) :=
  (((rows.map (·.district)).dedup).insertionSort strLe).map
    (fun d => (d, districtSum rows d))

/-- Scan keeping the current maximum, replacing it only on a strictly
greater value: this is how idxmax selects the first occurrence of the
maximum in series order. -/
def pick : String × Int → List (String × Int) → String × Int
  | best, [] => best
  | best, q :: l => pick (if best.2 < q.2 then q else best) l

/-- Series.idxmax: label of the first occurrence of the maximum value;
none models the ValueError pandas raises on an empty series. -/
def idxmax : List (String × Int) → Option String
  | [] => none
  | q :: l => some (pick q l).1

/-- app.py line 85: groupby district, sum Count, idxmax. -/
def top_district (rows : List MasterRow) : Option String :=
  idxmax (groupSumsByDistrict rows)

/-- Errors that escape a view; emptyReduction models the ValueError of
idxmax on an empty series.  No handler exists past the load boundary, so
an error value is the final outcome of the view. -/
inductive RenderError where
  | emptyReduction
deriving DecidableEq, Repr

/-- The three KPI metrics of the Executive Summary (app.py lines 83 to 90). -/
structure ExecSummaryKPIs where
  totalEnrol : Int
  totalUpdates : Int
  topDistrict : String
deriving DecidableEq, Repr

/-- Executive Summary view: the three KPIs; the idxmax of line 85 raises
on an empty filtered table and nothing catches it. -/
def executiveSummaryView (rows : List MasterRow) : Except RenderError ExecSummaryKPIs :=
  match top_district rows with
  | none => .error .emptyReduction
  | some d => .ok ⟨total_enrol rows, total_updates rows, d⟩

/-- app.py line 133: restriction to the rows whose Type is Update_Demographic. -/
def demo_data (rows : List MasterRow) : List MasterRow :=
  rows.filter (fun r => r.Type_ == "Update_Demographic")

/-- app.py line 136: groupby district on the restricted rows, sum Count,
nlargest 10: the ten largest sums in descending order. -/
def top_districts (rows : List MasterRow) : List (String × Int) :=
  ((groupSumsByDistrict (demo_data rows)).insertionSort (fun a b => b.2 ≤ a.2)).take 10

instance : IsTotal (String × Int) (fun a b => b.2 ≤ a.2) :=
  ⟨fun a b => (le_total b.2 a.2)⟩

instance : IsTrans (String × Int) (fun a b => b.2 ≤ a.2) :=
  ⟨fun _ _ _ hab hbc => le_trans hbc hab⟩

/-- Bar chart data of the Migration Tracker view. -/
structure MigrationChart where
  bars : List (String × Int)
deriving DecidableEq, Repr

/-- Migration Tracker view (app.py lines 128 to 141): every operation on
its path (filter, groupby, sum, nlargest, bar chart) is total on an empty
table, so the view never raises. -/
def migrationTrackerView (rows : List MasterRow) : Except RenderError MigrationChart :=
  .ok ⟨top_districts rows⟩

/-- One row of forecast_data.csv as read from disk: a cell that is NaN is
none, and the table-level flags below record which of the two date
columns exist at all. -/
structure RawForecastRow where
  Date : Option String
  date : Option String
  Actual_Count : Option Int
  Predicted_Count : Option Int
deriving DecidableEq, Repr

/-- forecast_data.csv: the rows plus the presence of the two possible
date columns, Date and date. -/
structure RawForecastCSV where
  hasDateUpper : Bool
  hasDateLower : Bool
  rows : List RawForecastRow
deriving DecidableEq, Repr

/-- A column absent from the CSV carries no values: if the flag for a
date column is false, every row has none in that field. -/
def RawForecastCSV.wf (csv : RawForecastCSV) : Prop :=
  (csv.hasDateUpper = false → ∀ r ∈ csv.rows, r.Date = none) ∧
  (csv.hasDateLower = false → ∀ r ∈ csv.rows, r.date = none)

/-- One row of the loaded forecast table after date normalization. -/
structure ForecastRow where
  Combined_Date : Option String
  Actual_Count : Option Int
  Predicted_Count : Option Int
deriving DecidableEq, Repr

/-- Series.fillna applied pointwise: keep the first value when present,
otherwise fall back to the second. -/
def fillna (a b : Option String) : Option String :=
  match a with
  | some x => some x
  | none => b

/-- Errors of the load phase: a missing file, or a missing column looked
up by name (the KeyError of pandas). -/
inductive LoadError where
  | fileNotFound
  | keyError (col : String)
deriving DecidableEq, Repr

/-- app.py lines 30 to 44, load_forecast_data: read forecast_data.csv
(none models a missing file), then normalize the date column: when both
Date and date exist, Combined_Date is Date filled from date; when only
Date exists it is Date; otherwise the code reads the date column
unconditionally, which raises KeyError when that column is absent too. -/
def load_forecast_data (file : Option RawForecastCSV) : Except LoadError (List ForecastRow) :=
  match file with
  | none => .error .fileNotFound
  | some csv =>
    if csv.hasDateUpper && csv.hasDateLower then
      .ok (csv.rows.map (fun r => ⟨fillna r.Date r.date, r.Actual_Count, r.Predicted_Count⟩))
    else if csv.hasDateUpper then
      .ok (csv.rows.map (fun r => ⟨r.Date, r.Actual_Count, r.Predicted_Count⟩))
    else if csv.hasDateLower then
      .ok (csv.rows.map (fun r => ⟨r.date, r.Actual_Count, r.Predicted_Count⟩))
    else
      .error (.keyError "date")

/-- app.py lines 23 to 28, load_master_data: read the master CSV; none
models a missing file. -/
def load_master_data (file : Option (List MasterRow)) : Except LoadError (List MasterRow) :=
  match file with
  | none => .error .fileNotFound
  | some rows => .ok rows

/-- Outcome of the top-level load block: either both tables loaded
(data_loaded = True) or the recovered waiting-for-data page. -/
inductive LoadOutcome where
  | loaded (master : List MasterRow) (forecast : List ForecastRow)
  | waitingForData
deriving DecidableEq, Repr

/-- app.py lines 46 to 52: the only recovery boundary of the program.
The try block loads the master table then the forecast table; except
catches exactly FileNotFoundError, turning it into the waiting page;
every other load error escapes uncaught. -/
def loadBoundary (masterFile : Option (List MasterRow)) (forecastFile : Option RawForecastCSV) :
    Except LoadError LoadOutcome :=
  match load_master_data masterFile with
  | .error .fileNotFound => .ok .waitingForData
  | .error e => .error e
  | .ok m =>
    match load_forecast_data forecastFile with
    | .error .fileNotFound => .ok .waitingForData
    | .error e => .error e
    | .ok f => .ok (.loaded m f)

/-- app.py line 166: pred_data, the forecast rows that carry a prediction. -/
def pred_data (rows : List ForecastRow) : List ForecastRow :=
  rows.filter (fun r => r.Predicted_Count.isSome)

/-- The two series of the AI Forecast chart (app.py lines 154 to 174):
Actual Data over every row, AI Forecast over pred_data only. -/
structure AIForecastChart where
  actualSeries : List (Option String × Option Int)
  forecastSeries : List (Option String × Option Int)
deriving DecidableEq, Repr

/-- AI Forecast view: plot Actual_Count over the full table and
Predicted_Count over pred_data. -/
def aiForecastView (rows : List ForecastRow) : AIForecastChart :=
  ⟨rows.map (fun r => (r.Combined_Date, r.Actual_Count)),
   (pred_data rows).map (fun r => (r.Combined_Date, r.Predicted_Count))⟩

/-- Example master table from the specification: one Enrolment row of 100,
one biometric update of 40, one demographic update of 10. -/
def exC4rows : List MasterRow :=
  [⟨"2024-01-01", "S1", "D1", "Enrolment", "0-5", 100⟩,
   ⟨"2024-01-01", "S1", "D1", "Update_Biometric", "5-17", 40⟩,
   ⟨"2024-01-01", "S1", "D1", "Update_Demographic", "18+", 10⟩]

/-- Example master table giving district sums A: 5 and B: 50. -/
def exABrows : List MasterRow :=
  [⟨"2024-01-01", "S1", "A", "Enrolment", "0-5", 5⟩,
   ⟨"2024-01-01", "S1", "B", "Enrolment", "0-5", 50⟩]

/-- Master table whose districts B then A, in that iteration order, have
equal sums: district B occurs first in the table, district A is
lexicographically smaller.  The two rows also carry distinct states. -/
def exTieRows : List MasterRow :=
  [⟨"2024-01-01", "S1", "B", "Enrolment", "0-5", 5⟩,
   ⟨"2024-01-01", "S2", "A", "Enrolment", "0-5", 5⟩]

/-- A filtered sum over Count equals the specification wording: sum of
Count where the predicate holds, zero contribution elsewhere. -/
theorem sum_filter_eq_sumCountWhere (p : MasterRow → Bool) (q : MasterRow → Prop)
    [DecidablePred q] (hpq : ∀ r, p r = true ↔ q r) (l : List MasterRow) :
    ((l.filter p).map (·.Count)).sum = sumCountWhere q l := by
  induction l with
  | nil => rfl
  | cons r l ih =>
    by_cases h : q r
    · have hp : p r = true := (hpq r).mpr h
      simp [sumCountWhere, List.filter_cons, hp, h] at ih ⊢
      omega
    · have hp : p r = false := by
        cases hpb : p r
        · rfl
        · exact absurd ((hpq r).mp hpb) h
      simp [sumCountWhere, List.filter_cons, hp, h] at ih ⊢
      omega

/-- Claim C4: the Executive Summary totals are the sum of Count over rows
with Type equal to Enrolment and the sum of Count over the remaining
rows; on the example table of the specification they are 100 and 50. -/
theorem C4_kpi_totals :
    (∀ rows : List MasterRow,
        total_enrol rows = sumCountWhere (fun r => r.Type_ = "Enrolment") rows ∧
        total_updates rows = sumCountWhere (fun r => r.Type_ ≠ "Enrolment") rows) ∧
    total_enrol exC4rows = 100 ∧ total_updates exC4rows = 50 := by
  refine ⟨fun rows => ⟨?_, ?_⟩, by decide, by decide⟩
  · exact sum_filter_eq_sumCountWhere _ _ (fun r => by simp) rows
  · exact sum_filter_eq_sumCountWhere _ _ (fun r => by simp) rows

/-- Claim C9: the two KPI predicates partition the rows, so the two
totals add up to the sum of Count over the whole filtered table. -/
theorem C9_kpi_partition (rows : List MasterRow) :
    total_enrol rows + total_updates rows = (rows.map (·.Count)).sum := by
  induction rows with
  | nil => rfl
  | cons r l ih =>
    by_cases h : (r.Type_ == "Enrolment") = true
    · simp [total_enrol, total_updates, List.filter_cons, h] at ih ⊢
      omega
    · simp [total_enrol, total_updates, List.filter_cons, h] at ih ⊢
      omega

/-- Claim C3: with a non-sentinel selection the filtered view holds
exactly the rows of that state and, together with its complement, is a
permutation of the whole table; the sentinel All India leaves the table
unfiltered.  The filter is a pure function of its arguments. -/
theorem C3_state_filter (rows : List MasterRow) (s : String) :
    (s ≠ "All India" →
      (∀ r ∈ df_filtered rows s, r.state = s) ∧
      (df_filtered rows s ++ rows.filter (fun r => !(r.state == s))).Perm rows) ∧
    df_filtered rows "All India" = rows := by
  constructor
  · intro hs
    rw [df_filtered, if_pos hs]
    exact ⟨fun r hr => by simpa using (List.mem_filter.mp hr).2,
           List.filter_append_perm _ rows⟩
  · simp [df_filtered]

/-- Witness for C3 at a concrete table and the concrete state S1. -/
theorem C3_state_filter_witness :
    ("S1" : String) ≠ "All India" ∧
    ((∀ r ∈ df_filtered exTieRows "S1", r.state = "S1") ∧
      (df_filtered exTieRows "S1" ++
        exTieRows.filter (fun r => !(r.state == "S1"))).Perm exTieRows) :=
  ⟨by decide, (C3_state_filter exTieRows "S1").1 (by decide)⟩

/-- Claim C5: on the empty filtered table the grouped sum series is empty,
idxmax has nothing to reduce, and the Executive Summary view ends in the
uncaught empty-reduction error instead of rendering. -/
theorem C5_empty_idxmax :
    top_district ([] : List MasterRow) = none ∧
    executiveSummaryView ([] : List MasterRow) = .error .emptyReduction := by
  constructor <;> rfl

/-- Specification of the idxmax scan: over a series whose labels are
strictly sorted, pick returns an element of the series whose value is
maximal, and among equal maximal values it returns the one with the
least label, because that one comes first in series order.  The fourth
conjunct is the invariant making the tie case go through: the scan moves
off its starting element only for a strictly greater value. -/
theorem pick_spec (l : List (String × Int)) (best : String × Int)
    (hs : (best :: l).Pairwise (fun a b => strLe a.1 b.1)) :
    pick best l ∈ best :: l ∧
    (∀ q ∈ best :: l, q.2 ≤ (pick best l).2) ∧
    (∀ q ∈ best :: l, q.2 = (pick best l).2 → strLe (pick best l).1 q.1) ∧
    (pick best l = best ∨ best.2 < (pick best l).2) := by
  induction l generalizing best with
  | nil =>
    refine ⟨List.mem_singleton.mpr rfl, ?_, ?_, Or.inl rfl⟩
    · intro q hq
      rw [List.mem_singleton.mp hq]
      exact le_refl _
    · intro q hq _
      rw [List.mem_singleton.mp hq]
      exact strLe_refl _
  | cons p rest ih =>
    have h1 : ∀ a ∈ p :: rest, strLe best.1 a.1 := (List.pairwise_cons.mp hs).1
    have h2 : (p :: rest).Pairwise (fun a b => strLe a.1 b.1) := (List.pairwise_cons.mp hs).2
    by_cases hlt : best.2 < p.2
    · have hpk : pick best (p :: rest) = pick p rest := by simp [pick, hlt]
      obtain ⟨hmem, hmax, htie, hrep⟩ := ih p h2
      rw [hpk]
      have hple : p.2 ≤ (pick p rest).2 := hmax p (List.mem_cons_self p rest)
      refine ⟨List.mem_cons_of_mem best hmem, ?_, ?_,
        Or.inr (lt_of_lt_of_le hlt hple)⟩
      · intro q hq
        rcases List.mem_cons.mp hq with rfl | hq'
        · exact le_of_lt (lt_of_lt_of_le hlt hple)
        · exact hmax q hq'
      · intro q hq hq2
        rcases List.mem_cons.mp hq with rfl | hq'
        · exfalso; omega
        · exact htie q hq' hq2
    · have hpk : pick best (p :: rest) = pick best rest := by simp [pick, hlt]
      have h2' : (best :: rest).Pairwise (fun a b => strLe a.1 b.1) :=
        List.pairwise_cons.mpr ⟨fun a ha => h1 a (List.mem_cons_of_mem p ha),
          (List.pairwise_cons.mp h2).2⟩
      obtain ⟨hmem, hmax, htie, hrep⟩ := ih best h2'
      rw [hpk]
      have hble : best.2 ≤ (pick best rest).2 := hmax best (List.mem_cons_self best rest)
      refine ⟨?_, ?_, ?_, hrep⟩
      · rcases List.mem_cons.mp hmem with h' | h'
        · rw [h']; exact List.mem_cons_self best (p :: rest)
        · exact List.mem_cons_of_mem best (List.mem_cons_of_mem p h')
      · intro q hq
        rcases List.mem_cons.mp hq with rfl | hq'
        · exact hble
        rcases List.mem_cons.mp hq' with rfl | hq''
        · omega
        · exact hmax q (List.mem_cons_of_mem best hq'')
      · intro q hq hq2
        rcases List.mem_cons.mp hq with rfl | hq'
        · exact htie q (List.mem_cons_self q rest) hq2
        rcases List.mem_cons.mp hq' with rfl | hq''
        · have hpb : pick best rest = best := by
            rcases hrep with h' | h'
            · exact h'
            · exfalso; omega
          rw [hpb]
          exact h1 q (List.mem_cons_self q rest)
        · exact htie q (List.mem_cons_of_mem best hq'') hq2

/-- The grouped series has its labels in strictly ascending order, since
pandas sorts the distinct group keys. -/
theorem groupSums_pairwise (rows : List MasterRow) :
    (groupSumsByDistrict rows).Pairwise (fun a b => strLe a.1 b.1) := by
  unfold groupSumsByDistrict
  rw [List.pairwise_map]
  exact List.sorted_insertionSort strLe _

/-- Every entry of the grouped series is a district of the table paired
with its summed Count. -/
theorem mem_groupSums {rows : List MasterRow} {q : String × Int}
    (hq : q ∈ groupSumsByDistrict rows) :
    q.1 ∈ rows.map (·.district) ∧ q.2 = districtSum rows q.1 := by
  unfold groupSumsByDistrict at hq
  rcases List.mem_map.mp hq with ⟨d, hd, rfl⟩
  exact ⟨List.mem_dedup.mp ((List.perm_insertionSort strLe _).mem_iff.mp hd), rfl⟩

/-- Every district of the table appears in the grouped series with its
summed Count. -/
theorem groupSums_mem {rows : List MasterRow} {d : String}
    (hd : d ∈ rows.map (·.district)) :
    (d, districtSum rows d) ∈ groupSumsByDistrict rows := by
  unfold groupSumsByDistrict
  exact List.mem_map_of_mem _
    ((List.perm_insertionSort strLe _).mem_iff.mpr (List.mem_dedup.mpr hd))

/-- A non-empty table yields a non-empty grouped series. -/
theorem groupSums_ne_nil {rows : List MasterRow} (h : rows ≠ []) :
    groupSumsByDistrict rows ≠ [] := by
  unfold groupSumsByDistrict
  intro hcon
  have hsort : ((rows.map (·.district)).dedup).insertionSort strLe = [] :=
    List.map_eq_nil_iff.mp hcon
  have hperm := List.perm_insertionSort strLe ((rows.map (·.district)).dedup)
  rw [hsort] at hperm
  have hded := hperm.symm.eq_nil
  rw [List.dedup_eq_nil] at hded
  exact h (List.map_eq_nil_iff.mp hded)

/-- Claim C1 (amended): on every non-empty filtered table, the Highest
Traffic District is a district of the table attaining the maximal summed
Count, and on ties between districts of equal maximal sum the result is
the least district name in code-point order, because pandas groupby
sorts its keys ascending before idxmax scans the series; the tie-break
is not first occurrence in table iteration order.  On district sums
A: 5 and B: 50 the result is B. -/
theorem C1_top_district :
    (∀ rows : List MasterRow, rows ≠ [] →
      ∃ d, top_district rows = some d ∧
        d ∈ rows.map (·.district) ∧
        (∀ d' ∈ rows.map (·.district), districtSum rows d' ≤ districtSum rows d) ∧
        (∀ d' ∈ rows.map (·.district),
          districtSum rows d' = districtSum rows d → strLe d d')) ∧
    top_district exABrows = some "B" := by
  constructor
  · intro rows hr
    obtain ⟨q, l, hql⟩ : ∃ q l, groupSumsByDistrict rows = q :: l := by
      cases hg : groupSumsByDistrict rows with
      | nil => exact absurd hg (groupSums_ne_nil hr)
      | cons q l => exact ⟨q, l, rfl⟩
    have hpw := groupSums_pairwise rows
    rw [hql] at hpw
    obtain ⟨hmem, hmax, htie, _⟩ := pick_spec l q hpw
    have hmem' : pick q l ∈ groupSumsByDistrict rows := hql ▸ hmem
    obtain ⟨hd1, hd2⟩ := mem_groupSums hmem'
    refine ⟨(pick q l).1, ?_, hd1, ?_, ?_⟩
    · unfold top_district
      rw [hql]
      rfl
    · intro d' hd'
      have h1 := groupSums_mem hd'
      rw [hql] at h1
      have h2 : districtSum rows d' ≤ (pick q l).2 := hmax _ h1
      rw [← hd2]
      exact h2
    · intro d' hd' heq
      have h1 := groupSums_mem hd'
      rw [hql] at h1
      have h2 : districtSum rows d' = (pick q l).2 := by rw [heq, hd2]
      exact htie _ h1 h2
  · decide

/-- Witness for C1 at the concrete table with district sums A: 5, B: 50. -/
theorem C1_top_district_witness :
    exABrows ≠ [] ∧
    (∃ d, top_district exABrows = some d ∧
      d ∈ exABrows.map (·.district) ∧
      (∀ d' ∈ exABrows.map (·.district),
        districtSum exABrows d' ≤ districtSum exABrows d) ∧
      (∀ d' ∈ exABrows.map (·.district),
        districtSum exABrows d' = districtSum exABrows d → strLe d d')) :=
  ⟨by decide, C1_top_district.1 exABrows (by decide)⟩

/-- Counterexample to C1 as stated: districts B then A appear in that
table iteration order with equal sums 5, yet the code returns A, the
lexicographically smaller label, not the first occurrence B. -/
theorem C1_counterexample :
    exTieRows.map (·.district) = ["B", "A"] ∧
    districtSum exTieRows "B" = 5 ∧ districtSum exTieRows "A" = 5 ∧
    top_district exTieRows = some "A" ∧
    ¬ top_district exTieRows = some "B" := by
  decide

/-- Claim C6: the Migration Tracker chart data is built from the rows
with Type Update_Demographic, grouped by district with Count summed, and
is the top 10 of those sums in descending order: it has min 10 n entries
of the n grouped sums, is sorted descending by summed Count, and together
with some remainder of everywhere-smaller-or-equal entries it is a
permutation of the whole grouped series. -/
theorem C6_migration_top10 (rows : List MasterRow) :
    (top_districts rows).length = min 10 (groupSumsByDistrict (demo_data rows)).length ∧
    (top_districts rows).Pairwise (fun a b => b.2 ≤ a.2) ∧
    ∃ rest, (top_districts rows ++ rest).Perm (groupSumsByDistrict (demo_data rows)) ∧
      ∀ a ∈ rest, ∀ b ∈ top_districts rows, a.2 ≤ b.2 := by
  unfold top_districts
  have hperm := List.perm_insertionSort (fun a b : String × Int => b.2 ≤ a.2)
      (groupSumsByDistrict (demo_data rows))
  have hpw : ((groupSumsByDistrict (demo_data rows)).insertionSort
      (fun a b : String × Int => b.2 ≤ a.2)).Pairwise (fun a b => b.2 ≤ a.2) :=
    List.sorted_insertionSort (fun a b : String × Int => b.2 ≤ a.2)
      (groupSumsByDistrict (demo_data rows))
  refine ⟨?_, List.Pairwise.sublist (List.take_sublist _ _) hpw,
    ((groupSumsByDistrict (demo_data rows)).insertionSort
      (fun a b : String × Int => b.2 ≤ a.2)).drop 10, ?_, ?_⟩
  · rw [List.length_take, hperm.length_eq]
  · rw [List.take_append_drop]
    exact hperm
  · intro a ha b hb
    rw [← List.take_append_drop 10 ((groupSumsByDistrict (demo_data rows)).insertionSort
      (fun a b : String × Int => b.2 ≤ a.2))] at hpw
    exact (List.pairwise_append.mp hpw).2.2 b hb a ha

/-- Claim C7: when no row has Type Update_Demographic the Migration
Tracker restriction is empty, the grouped series and its top 10 are
empty, and the view still renders (an empty chart) instead of erring,
unlike the Executive Summary on an empty reduction. -/
theorem C7_migration_empty_chart (rows : List MasterRow)
    (h : ∀ r ∈ rows, r.Type_ ≠ "Update_Demographic") :
    demo_data rows = [] ∧ top_districts rows = [] ∧
    migrationTrackerView rows = .ok ⟨[]⟩ := by
  have hdd : demo_data rows = [] := by
    unfold demo_data
    rw [List.filter_eq_nil_iff]
    intro a ha
    simpa using h a ha
  have htd : top_districts rows = [] := by
    unfold top_districts
    rw [hdd]
    rfl
  refine ⟨hdd, htd, ?_⟩
  unfold migrationTrackerView
  rw [htd]

/-- Witness for C7 at a concrete table holding no demographic updates. -/
theorem C7_migration_empty_chart_witness :
    (∀ r ∈ exABrows, r.Type_ ≠ "Update_Demographic") ∧
    (demo_data exABrows = [] ∧ top_districts exABrows = [] ∧
      migrationTrackerView exABrows = .ok ⟨[]⟩) :=
  ⟨by decide, C7_migration_empty_chart exABrows (by decide)⟩

/-- Claim C2: for a well-formed forecast CSV (a column absent from the
file carries no values), a successful load normalizes every row to the
first non-null of the two date columns: Combined_Date is the value of
Date when that is non-null and the value of date otherwise.  This covers
all three live branches of load_forecast_data. -/
theorem C2_combined_date (csv : RawForecastCSV) (hwf : csv.wf)
    (rows : List ForecastRow) (hok : load_forecast_data (some csv) = .ok rows) :
    rows = csv.rows.map (fun r =>
      { Combined_Date := match r.Date with
          | some x => some x
          | none => r.date,
        Actual_Count := r.Actual_Count,
        Predicted_Count := r.Predicted_Count }) := by
  obtain ⟨hup, hlo⟩ := hwf
  unfold load_forecast_data at hok
  cases hU : csv.hasDateUpper with
  | true =>
    cases hL : csv.hasDateLower with
    | true =>
      simp only [hU, hL, Bool.and_self, if_pos, Except.ok.injEq] at hok
      subst hok
      apply List.map_congr_left
      intro r _
      cases hD : r.Date <;> simp [fillna, hD]
    | false =>
      simp only [hU, hL, Bool.and_false, Bool.false_eq_true, if_false, if_pos,
        Except.ok.injEq] at hok
      subst hok
      apply List.map_congr_left
      intro r hr
      have hrd : r.date = none := hlo hL r hr
      cases hD : r.Date <;> simp [hD, hrd]
  | false =>
    cases hL : csv.hasDateLower with
    | true =>
      simp only [hU, hL, Bool.false_and, Bool.false_eq_true, if_false, if_pos,
        Except.ok.injEq] at hok
      subst hok
      apply List.map_congr_left
      intro r hr
      have hrD : r.Date = none := hup hU r hr
      simp [hrD]
    | false =>
      simp only [hU, hL, Bool.false_and, Bool.false_eq_true, if_false,
        reduceCtorEq] at hok

/-- Forecast CSV of the specification example: both date columns exist,
the first row has Date filled and date null, the second the reverse. -/
def exForecastCSV : RawForecastCSV :=
  { hasDateUpper := true, hasDateLower := true,
    rows := [⟨some "2024-01-01", none, some 120, none⟩,
             ⟨none, some "2024-02-01", none, some 95⟩] }

/-- Expected loaded rows of the example CSV: the dates normalize to
2024-01-01 and 2024-02-01. -/
def exCombinedRows : List ForecastRow :=
  [⟨some "2024-01-01", some 120, none⟩,
   ⟨some "2024-02-01", none, some 95⟩]

/-- Witness for C2 on the example rows of the specification. -/
theorem C2_combined_date_witness :
    exForecastCSV.wf ∧
    load_forecast_data (some exForecastCSV) = .ok exCombinedRows ∧
    exCombinedRows = exForecastCSV.rows.map (fun r =>
      { Combined_Date := match r.Date with
          | some x => some x
          | none => r.date,
        Actual_Count := r.Actual_Count,
        Predicted_Count := r.Predicted_Count }) := by
  have hwf : exForecastCSV.wf := by
    constructor <;> intro h <;> simp [exForecastCSV] at h
  exact ⟨hwf, by rfl, C2_combined_date exForecastCSV hwf exCombinedRows (by rfl)⟩

/-- Forecast table of the specification example: 10 rows of which
exactly the last 3 carry a prediction. -/
def exForecast10 : List ForecastRow :=
  [⟨some "2024-01-01", some 100, none⟩,
   ⟨some "2024-01-02", some 101, none⟩,
   ⟨some "2024-01-03", some 102, none⟩,
   ⟨some "2024-01-04", some 103, none⟩,
   ⟨some "2024-01-05", some 104, none⟩,
   ⟨some "2024-01-06", some 105, none⟩,
   ⟨some "2024-01-07", some 106, none⟩,
   ⟨some "2024-01-08", none, some 90⟩,
   ⟨some "2024-01-09", none, some 88⟩,
   ⟨some "2024-01-10", none, some 86⟩]

/-- Claim C8: the AI Forecast series is built from exactly the rows with
a non-null Predicted_Count, no more and no fewer, while the Actual Data
series ranges over every row; on the 10-row example with 3 predictions
the forecast series has exactly those 3 points. -/
theorem C8_forecast_series :
    (∀ (rows : List ForecastRow) (r : ForecastRow),
        r ∈ pred_data rows ↔ r ∈ rows ∧ r.Predicted_Count.isSome = true) ∧
    (∀ rows : List ForecastRow,
        (aiForecastView rows).forecastSeries =
          (pred_data rows).map (fun r => (r.Combined_Date, r.Predicted_Count)) ∧
        (aiForecastView rows).actualSeries =
          rows.map (fun r => (r.Combined_Date, r.Actual_Count))) ∧
    exForecast10.length = 10 ∧
    pred_data exForecast10 =
      [⟨some "2024-01-08", none, some 90⟩,
       ⟨some "2024-01-09", none, some 88⟩,
       ⟨some "2024-01-10", none, some 86⟩] ∧
    (aiForecastView exForecast10).forecastSeries.length = 3 := by
  refine ⟨?_, fun rows => ⟨rfl, rfl⟩, by decide, by decide, by decide⟩
  intro rows r
  unfold pred_data
  exact List.mem_filter

/-- Claim C10: a forecast file that exists but has neither a Date nor a
date column makes load_forecast_data fail with the KeyError of the
unconditional read of the date column, and the load boundary, which
catches only FileNotFoundError, lets that error escape instead of
reaching the recovered waiting-for-data outcome. -/
theorem C10_missing_date_column (csv : RawForecastCSV)
    (hU : csv.hasDateUpper = false) (hL : csv.hasDateLower = false)
    (master : List MasterRow) :
    load_forecast_data (some csv) = .error (.keyError "date") ∧
    loadBoundary (some master) (some csv) = .error (.keyError "date") := by
  have h1 : load_forecast_data (some csv) = .error (.keyError "date") := by
    unfold load_forecast_data
    simp [hU, hL]
  refine ⟨h1, ?_⟩
  unfold loadBoundary load_master_data
  rw [h1]

/-- A forecast CSV carrying counts but no date column under either name. -/
def exNoDateCSV : RawForecastCSV :=
  { hasDateUpper := false, hasDateLower := false,
    rows := [⟨none, none, some 10, none⟩] }

/-- Witness for C10 at a concrete dateless CSV and a concrete master table. -/
theorem C10_missing_date_column_witness :
    exNoDateCSV.hasDateUpper = false ∧ exNoDateCSV.hasDateLower = false ∧
    (load_forecast_data (some exNoDateCSV) = .error (.keyError "date") ∧
      loadBoundary (some exABrows) (some exNoDateCSV) = .error (.keyError "date")) :=
  ⟨by decide, by decide, C10_missing_date_column exNoDateCSV (by decide) (by decide) exABrows⟩
